import Mathlib

/-!
Verification of the logpool repository: a shallow embedding in Lean 4 of the
`ControlThreads` class from `src/logpool/log.py` (and, for `finishLog`, the
legacy module `src/log.py`), together with theorems settling the claims about
its behaviour.

Conventions of the embedding:
- Python strings are Lean `String`; Python `None` is `Option.none`.
- Machine-level side effects (console, memory buffer, log file, callback) are
  modelled as explicit lists of emitted lines collected in a `Sinks` record.
- Futures are modelled by handle identifiers (`Nat`) together with a
  time-indexed done predicate `doneAt : Nat → Nat → Bool` (time in
  milliseconds); a completed future carries an `Except PyExc Nat` outcome.
- The caller context that CPython frame introspection recovers at run time
  (file name, function name, thread id, wall-clock stamp) is passed
  explicitly as a `CallCtx` record.
-/

namespace Logpool

/-- `os.path.basename` for slash-separated paths: the component after the
last slash (the whole string when no slash occurs). -/
def basename (p : String) : String :=
  ((p.splitOn "/").getLast?).getD p

/-- The configuration stored by `ControlThreads.__init__` in
`src/logpool/log.py`.  The field `simple_log` is a `List Bool` because the
source line reads `self.simple_log = simple_log,` — the trailing comma makes
the stored attribute the one-element tuple `(simple_log,)`, not the boolean
itself.  `has_callback` records whether a callback was supplied
(`self.callback is not None`). -/
structure Config where
  log_file : Option String
  print_log : Bool
  debug_mode : Bool
  use_process_pool : Bool
  keep_in_memory : Bool
  simple_log : List Bool
  has_callback : Bool
  deriving Repr, DecidableEq

/-- `ControlThreads.__init__`: builds the stored configuration from the
constructor parameters.  Mirrors the assignments in `src/logpool/log.py`
lines 66–80; in particular `simple_log := [simple_log]` embeds the
tuple-producing assignment `self.simple_log = simple_log,`. -/
def mkConfig (log_file : Option String) (print_log : Bool) (debug : Bool)
    (use_process_pool : Bool) (keep_in_memory : Bool) (simple_log : Bool)
    (has_callback : Bool) : Config :=
  { log_file := log_file
    print_log := print_log
    debug_mode := debug
    use_process_pool := use_process_pool
    keep_in_memory := keep_in_memory
    simple_log := [simple_log]
    has_callback := has_callback }

/-- Python truthiness of a tuple: a tuple is truthy iff it is non-empty.
Used to embed `if self.simple_log:` where `self.simple_log` is a tuple. -/
def pyTruthyTuple (t : List Bool) : Bool :=
  !t.isEmpty

/-- The caller context that `wlog` recovers at run time via
`inspect.currentframe().f_back.f_back`, `threading.current_thread()` and
`datetime.now()`. -/
structure CallCtx where
  filename : String
  function : String
  threadId : Nat
  now : String
  deriving Repr, DecidableEq

/-- The four output sinks of `wlog`, as lists of emitted lines: console
(`print`), in-memory buffer (`self.memory`), log-file lines (appends to
`self.log_file`), and calls of the external callback. -/
structure Sinks where
  console : List String
  memory : List String
  fileLines : List String
  callbackCalls : List String
  deriving Repr, DecidableEq

/-- Sinks of a freshly constructed instance: everything empty. -/
def emptySinks : Sinks :=
  { console := [], memory := [], fileLines := [], callbackCalls := [] }

/-- The string `log_message` built by `ControlThreads.wlog`
(`src/logpool/log.py` lines 155–171): timestamp prefix, then a shape that
depends on the level tag; the simplified branch replaces the whole message
(dropping the timestamp) and is taken when the stored `simple_log` tuple is
truthy. -/
def formatLog (cfg : Config) (ctx : CallCtx) (content : String)
    (tipo : String) : String :=
  let stamp := ctx.now ++ "  "
  if tipo = "[critical]" then
    stamp ++ tipo ++ " - Thread " ++ toString ctx.threadId ++ " - " ++ content
  else if tipo = "[time]" then
    stamp ++ tipo ++ " - " ++ content
  else if pyTruthyTuple cfg.simple_log then
    tipo ++ " - " ++ content
  else
    stamp ++ tipo ++ " - " ++ basename ctx.filename ++ " - " ++
      ctx.function ++ "() - " ++ content

/-- `ControlThreads.wlog`: formats the message and feeds each sink.  The
`print_log` argument is the local parameter of `wlog` (default `True` in the
source); note that the source consults this parameter, never the stored
`self.print_log` flag. -/
def wlog (cfg : Config) (s : Sinks) (ctx : CallCtx) (content : String)
    (tipo : String) (print_log : Bool) : Sinks :=
  let m := formatLog cfg ctx content tipo
  let s1 := if print_log then { s with console := s.console ++ [m] } else s
  let s2 :=
    if cfg.keep_in_memory then { s1 with memory := s1.memory ++ [m] } else s1
  let s3 :=
    if cfg.log_file.isSome then
      { s2 with fileLines := s2.fileLines ++ [m] }
    else s2
  if cfg.has_callback then
    { s3 with callbackCalls := s3.callbackCalls ++ [m] }
  else s3

/-- `ControlThreads.info`: calls `self.wlog(content, "[info]")`, leaving the
`print_log` parameter of `wlog` at its default `True`. -/
def info (cfg : Config) (s : Sinks) (ctx : CallCtx) (content : String) :
    Sinks :=
  wlog cfg s ctx content "[info]" true

/-- `ControlThreads.warn`: calls `self.wlog(content, "[warning]")`. -/
def warn (cfg : Config) (s : Sinks) (ctx : CallCtx) (content : String) :
    Sinks :=
  wlog cfg s ctx content "[warning]" true

/-- `ControlThreads.critical`: calls `self.wlog(content, "[critical]")`. -/
def critical (cfg : Config) (s : Sinks) (ctx : CallCtx) (content : String) :
    Sinks :=
  wlog cfg s ctx content "[critical]" true

/-- A concrete caller context used to evaluate the model on the example
from the specification: `info("hello")` called inside function `foo` of
file `bar.ext`. -/
def sampleCtx : CallCtx :=
  { filename := "/home/user/bar.ext"
    function := "foo"
    threadId := 1
    now := "01/01/2024 00:00:00" }

/-! ## Task pool: group table, submit, get_queue, wait -/

/-- The group table `self.tasks`: a Python dict from group name to the list
of futures submitted under that name, embedded as an association list in
insertion order (dict keys keep insertion order).  Futures are identified by
`Nat` handles.  `nextId` is the identifier the next submitted future will
receive. -/
structure PoolState where
  tasks : List (String × List Nat)
  nextId : Nat
  deriving Repr, DecidableEq

/-- Dict lookup `self.tasks[group]`: first entry with the given key, `none`
when the key is absent (a Python `KeyError`). -/
def lookupGroup : List (String × List Nat) → String → Option (List Nat)
  | [], _ => none
  | (k, v) :: rest, g => if k = g then some v else lookupGroup rest g

/-- The effect of
`if group not in self.tasks: self.tasks[group] = []` followed by
`self.tasks[group].append(future)`: append to the existing entry in place,
or add a new key at the end of the dict with a one-element list. -/
def appendGroup : List (String × List Nat) → String → Nat →
    List (String × List Nat)
  | [], g, fid => [(g, [fid])]
  | (k, v) :: rest, g, fid =>
    if k = g then (k, v ++ [fid]) :: rest
    else (k, v) :: appendGroup rest g fid

/-- The group table right after `__init__`: `self.tasks = {'default': []}`. -/
def initState : PoolState :=
  { tasks := [("default", [])], nextId := 0 }

/-- `ControlThreads.submit` (`src/logpool/log.py` lines 100–114): hands the
function to the executor obtaining a fresh future, registers the done
callback, creates the group if absent and appends the future to it.  The
second component is the value of the call itself: the Python function body
has no `return` statement, so the call evaluates to `None`. -/
def submit (st : PoolState) (g : String) : PoolState × Option Nat :=
  let fid := st.nextId
  ({ tasks := appendGroup st.tasks g fid, nextId := fid + 1 }, none)

/-- `ControlThreads.get_queue`: `[i.done() for i in self.tasks[group]]`.
`doneAt` is the point-in-time done predicate of the futures; an absent group
makes `self.tasks[group]` raise `KeyError`, embedded as `none`. -/
def get_queue (st : PoolState) (doneAt : Nat → Bool) (g : String) :
    Option (List Bool) :=
  match lookupGroup st.tasks g with
  | none => none
  | some l => some (l.map doneAt)

/-- The polling loop of `ControlThreads.wait`: at time `t` (milliseconds) it
recomputes `[i.done() for i in self.tasks[group]]` from the current list
`listAt t` of the group and returns when no entry is `False`; otherwise it
sleeps 50 ms (`time.sleep(0.05)`) and checks again.  `fuel` bounds the
number of checks so the function is total; `none` means the loop was still
running when the fuel ran out.  Returns the time at which the loop exits. -/
def waitFrom (doneAt : Nat → Nat → Bool) (listAt : Nat → List Nat) :
    Nat → Nat → Option Nat
  | _, 0 => none
  | t, fuel + 1 =>
    if (listAt t).all (doneAt t) then some t
    else waitFrom doneAt listAt (t + 50) fuel

/-- `ControlThreads.wait` (`src/logpool/log.py` lines 201–213): returns at
once when the group is not a key of `self.tasks`, otherwise runs the polling
loop starting at the call time `t0`. -/
def wait (st : PoolState) (g : String) (doneAt : Nat → Nat → Bool)
    (listAt : Nat → List Nat) (t0 : Nat) (fuel : Nat) : Option Nat :=
  match lookupGroup st.tasks g with
  | none => some t0
  | some _ => waitFrom doneAt listAt t0 fuel

/-! ## Worker failure reporting -/

/-- One traceback frame: the `filename`, `name` and `lineno` fields that
`worker_callbacks` extracts from each `tb_frame` of the raised error. -/
structure Frame where
  filename : String
  name : String
  lineno : Nat
  deriving Repr, DecidableEq

/-- A raised Python exception as seen by `worker_callbacks`: its type name
(`type(e).__name__`), its message (`str(e)`) and its traceback frames from
the raise point outward (`e.__traceback__` walked via `tb_next`). -/
structure PyExc where
  typeName : String
  msg : String
  frames : List Frame
  deriving Repr, DecidableEq

/-- One `[Trace k: file - fn() - line n]` fragment of the trace string. -/
def frameStr (k : Nat) (fr : Frame) : String :=
  "[Trace " ++ toString k ++ ": " ++ fr.filename ++ " - " ++ fr.name ++
    "() - line " ++ toString fr.lineno ++ "]"

/-- The `trace_str` accumulation loop of `worker_callbacks`: one bracketed
fragment per frame, keyed by `enumerate` starting from `k`. -/
def traceStr : Nat → List Frame → String
  | _, [] => ""
  | k, fr :: rest => frameStr k fr ++ traceStr (k + 1) rest

/-- `f.exception()` on a completed future whose outcome is `res`: the raised
error when the task failed, `None` when it returned normally. -/
def futureException (res : Except PyExc Nat) : Option PyExc :=
  match res with
  | Except.error e => some e
  | Except.ok _ => none

/-- The content string `worker_callbacks` passes to `control.critical` for a
failed future: exception type name, message and the frame trace. -/
def failureContent (e : PyExc) : String :=
  e.typeName ++ ": " ++ e.msg ++ " -> " ++ traceStr 0 e.frames

/-- The critical-level contents emitted by `worker_callbacks` for one
completed future with outcome `res`: nothing when the task succeeded
(`if e is None: return`), exactly one message when it raised. -/
def worker_callbacks (res : Except PyExc Nat) : List String :=
  match futureException res with
  | none => []
  | some e => [failureContent e]

/-! ## The module-level singleton and a second instance -/

/-- The configuration of the module-level singleton
`control = ControlThreads(log_file=None, print_log=True, debug=True)`: all
other parameters keep their defaults (`use_process_pool=False`,
`keep_in_memory=False`, `simple_log=False`, `callback=None`). -/
def globalControlCfg : Config :=
  mkConfig none true true false false false false

/-- The sinks of the module-level singleton `control` and of one separately
constructed `ControlThreads` instance, side by side. -/
structure TwoInstances where
  globalSinks : Sinks
  instSinks : Sinks
  deriving Repr, DecidableEq

/-- The effect of the done callback on the two instances when a future of
the separately constructed instance completes with outcome `res`.
`worker_callbacks` names the module-level `control` directly
(`control.critical(...)` at `src/logpool/log.py` line 241), so the emission
goes through `globalControlCfg` and the global sinks; no reference to the
submitting instance occurs anywhere in its body. -/
def handle_worker_completion (sys : TwoInstances) (ctx : CallCtx)
    (res : Except PyExc Nat) : TwoInstances :=
  match futureException res with
  | none => sys
  | some e =>
    { sys with
        globalSinks :=
          critical globalControlCfg sys.globalSinks ctx (failureContent e) }

/-! ## Log-file rotation (`finishLog`, from the legacy module `src/log.py`) -/

/-- A file system as a total map from path to contents (absent files read as
the empty string). -/
def fsUpdate (fs : String → String) (p c : String) : String → String :=
  fun q => if q = p then c else fs q

/-- The effect of the shell command `cp src dst` on the file system. -/
def shell_cp (fs : String → String) (src dst : String) : String → String :=
  fsUpdate fs dst (fs src)

/-- `ControlThreads.clear_logs`: `open(self.log_file, 'w')` truncates the
log file to empty. -/
def clear_logs (fs : String → String) (log_file : String) : String → String :=
  fsUpdate fs log_file ""

/-- `ControlThreads.finishLog` from the legacy module `src/log.py`:
`os.system(f'cp LOG FILENAME')` followed by `self.clear_logs()`. -/
def finishLog (fs : String → String) (log_file filename : String) :
    String → String :=
  clear_logs (shell_cp fs log_file filename) log_file

/-! ## Default worker count -/

/-- The default of the `max_workers` parameter of `ControlThreads.__init__`:
`psutil.cpu_count(logical=True) - 2`, as a function of the host logical CPU
count.  The source applies no lower bound. -/
def default_max_workers (logicalCpuCount : Nat) : Int :=
  (logicalCpuCount : Int) - 2

/-- The default worker count in the words of the specification: host logical
CPU count minus two, floored at a minimum of 1.  Stated only to be compared
with `default_max_workers`, the definition taken from the source. -/
def spec_default_max_workers (logicalCpuCount : Nat) : Int :=
  max 1 ((logicalCpuCount : Int) - 2)

/-- The argument check of the standard-library executors that
`ControlThreads.__init__` instantiates (`ThreadPoolExecutor(max_workers)` or
`ProcessPoolExecutor(max_workers)`): both reject a worker count that is not
strictly positive by raising `ValueError`, so pool construction fails
exactly when `max_workers ≤ 0`.  (CPython behaviour, documented for
`concurrent.futures`; not part of this repository.) -/
def executor_init_check (max_workers : Int) : Except String Unit :=
  if max_workers ≤ 0 then
    Except.error "max_workers must be greater than 0"
  else Except.ok ()

/-! ## Auxiliary notions for the statements -/

/-- `strOccurs pat hay`: the string `pat` occurs as a contiguous substring
of `hay` (stated on the underlying character lists). -/
def strOccurs (pat hay : String) : Prop :=
  ∃ s t : List Char, s ++ pat.data ++ t = hay.data

/-- A concrete raised exception used to evaluate the failure-reporting
model: `ValueError("bad input")` raised in `task` at line 3 of
`/home/user/job.py`, propagated from `runner` at line 9. -/
def sampleExc : PyExc :=
  { typeName := "ValueError"
    msg := "bad input"
    frames :=
      [ { filename := "/home/user/job.py", name := "runner", lineno := 9 }
      , { filename := "/home/user/job.py", name := "task", lineno := 3 } ] }

/-- A concrete file system holding one log file, used to evaluate the
rotation model. -/
def sampleFs : String → String :=
  fun q => if q = "app.log" then "line1" else ""

/-! ## Helper lemmas -/

theorem str_data_append (a b : String) : (a ++ b).data = a.data ++ b.data := by
  cases a
  cases b
  rfl

theorem strOccurs_append_left (pat a b : String) (h : strOccurs pat b) :
    strOccurs pat (a ++ b) := by
  obtain ⟨s, t, hk⟩ := h
  refine ⟨a.data ++ s, t, ?_⟩
  rw [str_data_append, ← hk]
  simp [List.append_assoc]

theorem lookupGroup_appendGroup_self (ts : List (String × List Nat))
    (g : String) (fid : Nat) :
    lookupGroup (appendGroup ts g fid) g =
      some (((lookupGroup ts g).getD []) ++ [fid]) := by
  induction ts with
  | nil => simp [appendGroup, lookupGroup]
  | cons hd tl ih =>
    obtain ⟨k, v⟩ := hd
    by_cases h : k = g
    · subst h
      simp [appendGroup, lookupGroup]
    · simp [appendGroup, lookupGroup, h, ih]

theorem lookupGroup_appendGroup_ne (ts : List (String × List Nat))
    (g g' : String) (fid : Nat) (h : g' ≠ g) :
    lookupGroup (appendGroup ts g fid) g' = lookupGroup ts g' := by
  have hne : g ≠ g' := fun hgg => h (Eq.symm hgg)
  induction ts with
  | nil =>
    simp [appendGroup, lookupGroup, hne]
  | cons hd tl ih =>
    obtain ⟨k, v⟩ := hd
    by_cases hk : k = g
    · subst hk
      simp [appendGroup, lookupGroup, hne]
    · simp [appendGroup, lookupGroup, hk, ih]

theorem waitFrom_some (doneAt : Nat → Nat → Bool) (listAt : Nat → List Nat) :
    ∀ fuel t tr, waitFrom doneAt listAt t fuel = some tr →
      (∃ k, tr = t + 50 * k) ∧ (listAt tr).all (doneAt tr) = true ∧ t ≤ tr := by
  intro fuel
  induction fuel with
  | zero =>
    intro t tr h
    simp [waitFrom] at h
  | succ n ih =>
    intro t tr h
    by_cases hc : (listAt t).all (doneAt t) = true
    · have ht : t = tr := by
        simpa [waitFrom, hc] using h
      subst ht
      exact ⟨⟨0, by omega⟩, hc, Nat.le_refl t⟩
    · have h' : waitFrom doneAt listAt (t + 50) n = some tr := by
        simpa [waitFrom, hc] using h
      obtain ⟨⟨k, hk⟩, hall, hle⟩ := ih (t + 50) tr h'
      exact ⟨⟨k + 1, by omega⟩, hall, by omega⟩

theorem frameStr_occurs_traceStr (fr : Frame) :
    ∀ (frames : List Frame) (k0 : Nat), fr ∈ frames →
      ∃ k, strOccurs (frameStr k fr) (traceStr k0 frames) := by
  intro frames
  induction frames with
  | nil =>
    intro k0 h
    cases h
  | cons hd tl ih =>
    intro k0 h
    cases h with
    | head =>
      refine ⟨k0, [], (traceStr (k0 + 1) tl).data, ?_⟩
      simp only [traceStr, str_data_append]
      simp
    | tail _ hmem =>
      obtain ⟨k, s, t, hk⟩ := ih (k0 + 1) hmem
      refine ⟨k, (frameStr k0 hd).data ++ s, t, ?_⟩
      simp only [traceStr, str_data_append]
      rw [← hk]
      simp [List.append_assoc]

/-! ## Claims -/

/-- Claim C1: the claim states that `submit` schedules the function,
appends the resulting handle to the named group (creating the group if
absent) and returns that handle to the caller.  The source does schedule
and append, but the body of `ControlThreads.submit` has no `return`
statement, so the call returns `None` — the class docstring example
`future = control.submit(task, 2)` followed by `future.result()` would
fail.  This theorem evaluates the model at the failing input: the handle is
appended, yet the returned value is `None`. -/
theorem C1_submit_appends_but_returns_none :
    lookupGroup (submit initState "default").1.tasks "default" = some [0] ∧
    lookupGroup (submit initState "jobs").1.tasks "jobs" = some [0] ∧
    (submit initState "default").2 = none ∧
    (submit initState "jobs").2 = none := by
  refine ⟨rfl, rfl, rfl, rfl⟩

/-- Claim C2: the claim states that with `simple_log=False` at construction
(the default) the emitted line includes the caller source-file basename and
function name, and only with `simple_log=True` does it reduce to the level
tag and message.  In the source, `self.simple_log = simple_log,` stores the
one-element tuple `(simple_log,)`, which is truthy even when the flag is
`False`, so the non-critical, non-time line always reduces to
`[info] - hello`.  This theorem evaluates the model at the failing input:
the flag is `false`, the stored tuple is truthy, and the line lacks the
basename `bar.ext` and the function name `foo`. -/
theorem C2_simple_log_false_still_simplified :
    pyTruthyTuple (mkConfig none true true false false false false).simple_log
      = true ∧
    formatLog (mkConfig none true true false false false false) sampleCtx
      "hello" "[info]" = "[info] - hello" := by
  refine ⟨rfl, rfl⟩

/-- Claim C3: the claim states that the formatted line is printed to the
console iff the console-echo flag given at construction is true.  In the
source, `wlog` tests its own local parameter `print_log` (default `True`),
never the stored `self.print_log`, and every level method calls `wlog`
without passing it, so printing happens regardless of the constructor flag.
This theorem evaluates the model at the failing input: the instance is
constructed with `print_log=False`, yet `info` still appends the line to
the console sink. -/
theorem C3_console_printed_despite_flag_false :
    (mkConfig none false true false false false false).print_log = false ∧
    (info (mkConfig none false true false false false false) emptySinks
      sampleCtx "hello").console = ["[info] - hello"] := by
  refine ⟨rfl, rfl⟩

/-- Claim C4: for a submitted task whose function raises, the exception
accessor of the handle returns the raised error itself (so type and message
match), `worker_callbacks` emits exactly one critical-level message whose
text carries the exception type name, the message and one bracketed
fragment per traceback frame, and a subsequent `submit` still appends to
the group table normally. -/
theorem C4_worker_failure_reported (e : PyExc) (st : PoolState) (g : String)
    (l : List Nat) (hg : lookupGroup st.tasks g = some l) :
    futureException (Except.error e) = some e ∧
    worker_callbacks (Except.error e) = [failureContent e] ∧
    strOccurs (e.typeName ++ ": " ++ e.msg) (failureContent e) ∧
    (∀ fr ∈ e.frames, ∃ k, strOccurs (frameStr k fr) (failureContent e)) ∧
    lookupGroup (submit st g).1.tasks g = some (l ++ [st.nextId]) := by
  have hsub : (submit st g).1.tasks = appendGroup st.tasks g st.nextId := rfl
  refine ⟨rfl, rfl, ?_, ?_, ?_⟩
  · refine ⟨[], (" -> " ++ traceStr 0 e.frames).data, ?_⟩
    simp only [failureContent, str_data_append]
    simp [List.append_assoc]
  · intro fr hmem
    obtain ⟨k, hocc⟩ := frameStr_occurs_traceStr fr e.frames 0 hmem
    refine ⟨k, ?_⟩
    have hfc : failureContent e =
        (e.typeName ++ ": " ++ e.msg ++ " -> ") ++ traceStr 0 e.frames := rfl
    rw [hfc]
    exact strOccurs_append_left _ _ _ hocc
  · rw [hsub, lookupGroup_appendGroup_self, hg]
    rfl

/-- Witness for C4: the concrete exception `sampleExc` raised in a task of
the default group of a fresh instance. -/
theorem C4_witness :
    lookupGroup initState.tasks "default" = some [] ∧
    (futureException (Except.error sampleExc) = some sampleExc ∧
     worker_callbacks (Except.error sampleExc) = [failureContent sampleExc] ∧
     strOccurs (sampleExc.typeName ++ ": " ++ sampleExc.msg)
       (failureContent sampleExc) ∧
     (∀ fr ∈ sampleExc.frames,
       ∃ k, strOccurs (frameStr k fr) (failureContent sampleExc)) ∧
     lookupGroup (submit initState "default").1.tasks "default"
       = some ([] ++ [initState.nextId])) :=
  ⟨rfl, C4_worker_failure_reported sampleExc initState "default" [] rfl⟩

/-- Claim C5: when `wait(G)` is called at time `t0` on a group present in
the table with handle list `l0`, and the group list only grows over time,
then at the time `tr` at which `wait` returns every handle of `l0` reports
done, and `tr` lies on the 50 ms polling grid starting at `t0`; when the
group has never been used, `wait` returns at the call time `t0` itself. -/
theorem C5_wait_done_and_noop (st : PoolState) (g : String)
    (doneAt : Nat → Nat → Bool) (listAt : Nat → List Nat)
    (t0 fuel tr : Nat) (l0 : List Nat) :
    ((lookupGroup st.tasks g = some l0) → (listAt t0 = l0) →
      (∀ t t', t ≤ t' → ∃ ext, listAt t' = listAt t ++ ext) →
      wait st g doneAt listAt t0 fuel = some tr →
      ((∀ i ∈ l0, doneAt tr i = true) ∧ ∃ k, tr = t0 + 50 * k)) ∧
    (lookupGroup st.tasks g = none →
      wait st g doneAt listAt t0 fuel = some t0) := by
  constructor
  · intro hcall hl0 grows hret
    have hret' : waitFrom doneAt listAt t0 fuel = some tr := by
      unfold wait at hret
      rw [hcall] at hret
      exact hret
    obtain ⟨⟨k, hk⟩, hall, hle⟩ := waitFrom_some doneAt listAt fuel t0 tr hret'
    refine ⟨?_, ⟨k, hk⟩⟩
    intro i hi
    obtain ⟨ext, hext⟩ := grows t0 tr hle
    have hi' : i ∈ listAt tr := by
      rw [hext, hl0]
      exact List.mem_append_left _ hi
    exact List.all_eq_true.mp hall i hi'
  · intro hnone
    simp [wait, hnone]

/-- Witness for C5: one task submitted to the default group, already done
at the call time, with a constant group list; `wait` returns at once and
the handle reports done. -/
theorem C5_witness :
    lookupGroup (submit initState "default").1.tasks "default" = some [0] ∧
    wait (submit initState "default").1 "default" (fun _ _ => true)
      (fun _ => [0]) 0 1 = some 0 ∧
    ((∀ i ∈ ([0] : List Nat), (fun _ _ => true : Nat → Nat → Bool) 0 i = true) ∧
      ∃ k, (0 : Nat) = 0 + 50 * k) :=
  ⟨rfl, rfl,
    (C5_wait_done_and_noop (submit initState "default").1 "default"
        (fun _ _ => true) (fun _ => [0]) 0 1 0 [0]).1
      rfl rfl (fun _ _ _ => ⟨[], rfl⟩) rfl⟩

/-- Claim C6 counterexample: the group `"default"` of a freshly constructed
instance has never been submitted to, yet `get_queue("default")` does not
fail with a not-found condition — it returns the empty snapshot, because
`__init__` pre-creates the default group.  The claim as stated (every
never-submitted group name makes `get_queue` fail) is therefore false at
this input. -/
theorem C6_counterexample_default_group :
    get_queue initState (fun _ => false) "default" = some [] ∧
    get_queue initState (fun _ => false) "default" ≠ none := by
  refine ⟨rfl, ?_⟩
  intro h
  rw [show get_queue initState (fun _ => false) "default" = some [] from rfl]
    at h
  exact Option.noConfusion h

/-- Claim C6 (amended): for every group name absent from the group table —
never submitted to and not the pre-created default group — `wait` is a
no-op returning at the call time while `get_queue` fails with the
`KeyError` not-found condition. -/
theorem C6_unknown_group_policies (st : PoolState) (g : String)
    (doneAt : Nat → Bool) (doneAt2 : Nat → Nat → Bool)
    (listAt : Nat → List Nat) (t0 fuel : Nat)
    (h : lookupGroup st.tasks g = none) :
    wait st g doneAt2 listAt t0 fuel = some t0 ∧
    get_queue st doneAt g = none := by
  constructor
  · simp [wait, h]
  · simp [get_queue, h]

/-- Witness for C6: the group name `"other"` on a fresh instance. -/
theorem C6_witness :
    lookupGroup initState.tasks "other" = none ∧
    (wait initState "other" (fun _ _ => false) (fun _ => []) 7 0 = some 7 ∧
     get_queue initState (fun _ => false) "other" = none) :=
  ⟨rfl, C6_unknown_group_policies initState "other" (fun _ => false)
      (fun _ _ => false) (fun _ => []) 7 0 rfl⟩

/-- Claim C7 counterexample: on a host with two logical CPUs the default
worker count of the source is `2 - 2 = 0`, not the floored value `1` the
claim states, and the executor construction rejects it, so construction
does not succeed on every host. -/
theorem C7_counterexample_two_cpus :
    default_max_workers 2 = 0 ∧
    spec_default_max_workers 2 = 1 ∧
    default_max_workers 2 ≠ spec_default_max_workers 2 ∧
    executor_init_check (default_max_workers 2) =
      Except.error "max_workers must be greater than 0" := by
  refine ⟨by decide, by decide, by decide, rfl⟩

/-- Claim C7 (amended): the default worker count is the host logical CPU
count minus two with no lower bound: with at least three logical CPUs it is
at least 1 and executor construction succeeds; with two or fewer it is zero
or negative and the executor rejects it, so default construction fails on
such hosts. -/
theorem C7_default_workers_unfloored (cpu : Nat) :
    default_max_workers cpu = (cpu : Int) - 2 ∧
    (3 ≤ cpu →
      1 ≤ default_max_workers cpu ∧
      executor_init_check (default_max_workers cpu) = Except.ok ()) ∧
    (cpu ≤ 2 →
      default_max_workers cpu ≤ 0 ∧
      executor_init_check (default_max_workers cpu) =
        Except.error "max_workers must be greater than 0") := by
  refine ⟨rfl, ?_, ?_⟩
  · intro h
    have h1 : (1 : Int) ≤ (cpu : Int) - 2 := by omega
    have h2 : ¬ ((cpu : Int) - 2 ≤ 0) := by omega
    exact ⟨h1, by simp [executor_init_check, default_max_workers, h2]⟩
  · intro h
    have h1 : ((cpu : Int) - 2) ≤ 0 := by omega
    exact ⟨h1, by simp [executor_init_check, default_max_workers, h1]⟩

/-- Witness for C7: a host with eight logical CPUs. -/
theorem C7_witness :
    3 ≤ 8 ∧
    (1 ≤ default_max_workers 8 ∧
     executor_init_check (default_max_workers 8) = Except.ok ()) :=
  ⟨by decide, (C7_default_workers_unfloored 8).2.1 (by decide)⟩

/-- Claim C8: invariants of the group table.  The default group exists
right after construction; `submit` — the only operation mutating the table
— preserves the existence of the default group; every existing group list
only ever grows under `submit` (the old list is a prefix of the new one);
a group absent from the table is created on first submission holding
exactly the new handle; and a submission to an existing group appends the
new handle at the end, so order reflects submission order. -/
theorem C8_group_table_invariant (st : PoolState) (g g' : String)
    (l : List Nat) :
    lookupGroup initState.tasks "default" = some [] ∧
    (lookupGroup st.tasks "default" ≠ none →
      lookupGroup (submit st g).1.tasks "default" ≠ none) ∧
    (lookupGroup st.tasks g' = some l →
      ∃ ext, lookupGroup (submit st g).1.tasks g' = some (l ++ ext)) ∧
    (lookupGroup st.tasks g = none →
      lookupGroup (submit st g).1.tasks g = some [st.nextId]) ∧
    (lookupGroup st.tasks g = some l →
      lookupGroup (submit st g).1.tasks g = some (l ++ [st.nextId])) := by
  have hsub : (submit st g).1.tasks = appendGroup st.tasks g st.nextId := rfl
  refine ⟨rfl, ?_, ?_, ?_, ?_⟩
  · intro hne
    by_cases hdg : "default" = g
    · subst hdg
      rw [hsub, lookupGroup_appendGroup_self]
      simp
    · rw [hsub, lookupGroup_appendGroup_ne st.tasks g "default" st.nextId hdg]
      exact hne
  · intro hl
    by_cases hgg : g' = g
    · subst hgg
      rw [hsub, lookupGroup_appendGroup_self, hl]
      exact ⟨[st.nextId], rfl⟩
    · rw [hsub, lookupGroup_appendGroup_ne st.tasks g g' st.nextId hgg, hl]
      exact ⟨[], by simp⟩
  · intro hnone
    rw [hsub, lookupGroup_appendGroup_self, hnone]
    rfl
  · intro hsome
    rw [hsub, lookupGroup_appendGroup_self, hsome]
    rfl

/-- Witness for C8: submitting to a new group `"jobs"` on a fresh instance
leaves the default group in place and only extends it. -/
theorem C8_witness :
    lookupGroup initState.tasks "default" = some [] ∧
    (∃ ext, lookupGroup (submit initState "jobs").1.tasks "default"
        = some ([] ++ ext)) :=
  ⟨rfl, (C8_group_table_invariant initState "jobs" "default" []).2.2.1 rfl⟩

/-- Claim C9: `finishLog(destination)` — from the legacy module
`src/log.py` — first copies the configured log file to the destination path
and then truncates the log file, so afterwards the destination holds the
prior log contents and the live log file is empty (for a destination path
distinct from the log file itself). -/
theorem C9_finishLog_rotates (fs : String → String)
    (log_file filename : String) (h : filename ≠ log_file) :
    finishLog fs log_file filename filename = fs log_file ∧
    finishLog fs log_file filename log_file = "" := by
  unfold finishLog clear_logs shell_cp fsUpdate
  constructor
  · simp [h]
  · simp

/-- Witness for C9: rotating the concrete log file `app.log` holding
`line1` into `backup.log`. -/
theorem C9_witness :
    ("backup.log" : String) ≠ "app.log" ∧
    (finishLog sampleFs "app.log" "backup.log" "backup.log"
        = sampleFs "app.log" ∧
     finishLog sampleFs "app.log" "backup.log" "app.log" = "") :=
  ⟨by decide, C9_finishLog_rotates sampleFs "app.log" "backup.log" (by decide)⟩

/-- Claim C10: when a task submitted through a separately constructed
instance fails, the completion hook `worker_callbacks` emits the critical
trace through the module-level singleton `control` (constructed with no log
file), not through the submitting instance: the sinks of the instance are
untouched, no file line is written anywhere (the singleton has no log
file), and the critical line lands on the console of the singleton. -/
theorem C10_failure_logged_via_global_singleton (sys : TwoInstances)
    (ctx : CallCtx) (e : PyExc) :
    (handle_worker_completion sys ctx (Except.error e)).instSinks
      = sys.instSinks ∧
    (handle_worker_completion sys ctx (Except.error e)).globalSinks.fileLines
      = sys.globalSinks.fileLines ∧
    (handle_worker_completion sys ctx (Except.error e)).globalSinks.memory
      = sys.globalSinks.memory ∧
    (handle_worker_completion sys ctx
        (Except.error e)).globalSinks.callbackCalls
      = sys.globalSinks.callbackCalls ∧
    (handle_worker_completion sys ctx (Except.error e)).globalSinks.console
      = sys.globalSinks.console ++
        [formatLog globalControlCfg ctx (failureContent e) "[critical]"] := by
  refine ⟨rfl, rfl, rfl, rfl, rfl⟩

end Logpool
